import Mathlib

/-!
Shallow embedding of the Movie review REST API (Django REST Framework app
`Movie`): the data model of `Movie/models.py`, the review submission and
rating-aggregation logic of `ReviewCreate.perform_create` in
`Movie/views.py`, the review update/delete of `ReviewDetail`, the
object-level permission `IsReviewUserOrReadOnly` of `Movie/permissions.py`,
the writable surface of `ReviewSerializer` in `Movie/serializers.py`, and
the `on_delete=CASCADE` semantics of the foreign keys.

Numeric fields: Django's `FloatField` `avg_rating` is modelled as `ℚ`
(the only arithmetic performed on it is adding a small integer and halving,
which is exact); `IntegerField`/ids are `Nat`.
-/

namespace MovieApi

/-- `StreamPlatform` of `Movie/models.py`: name, about, website plus a
primary key. -/
structure StreamPlatform where
  id : Nat
  name : String
  about : String
  website : String
deriving Repr, DecidableEq

/-- `Movie` of `Movie/models.py`: title, storyline, FK `platform`
(`on_delete=CASCADE`), `active` (default true), `avg_rating`
(FloatField, default 0), `number_rating` (IntegerField, default 0). -/
structure Movie where
  id : Nat
  title : String
  storyline : String
  platform : Nat
  active : Bool
  avg_rating : ℚ
  number_rating : Nat
deriving Repr, DecidableEq

/-- `Review` of `Movie/models.py`: FK `review_user` (a user id), `rating`
(PositiveIntegerField with MinValueValidator 1 / MaxValueValidator 5),
optional `description` (CharField max_length 200, null=True), FK `movie`
(`on_delete=CASCADE`), `active` (default true). The auto-now `update`
timestamp carries no information the claims need and is omitted. -/
structure Review where
  id : Nat
  review_user : Nat
  rating : Nat
  description : Option String
  movie : Nat
  active : Bool
deriving Repr, DecidableEq

/-- An authenticated user, as the permission code sees it:
`request.user` with its `is_staff` flag. -/
structure User where
  id : Nat
  username : String
  is_staff : Bool
deriving Repr, DecidableEq

/-- The persistent store behind the ORM: the three tables plus the id
sequence for new reviews. -/
structure Store where
  platforms : List StreamPlatform
  movies : List Movie
  reviews : List Review
  nextReviewId : Nat
deriving Repr, DecidableEq

/-- The error taxonomy the endpoints surface: `Http404` (movie lookup
failure), DRF `ValidationError` (serializer validation failure or
duplicate review), `Forbidden` (permission denial). -/
inductive ApiError where
  | notFound
  | validationError
  | forbidden
deriving Repr, DecidableEq

/-- `Movie.objects.get(pk=pk)` as an `Option`: the first movie whose
primary key matches. -/
def findMovie (s : Store) (pk : Nat) : Option Movie :=
  s.movies.find? (fun m => m.id == pk)

/-- `Review.objects.filter(movie=movie, review_user=review_user).exists()`:
is there any review (active or not) by this user for this movie? -/
def hasReview (s : Store) (movieId userId : Nat) : Bool :=
  s.reviews.any (fun r => r.movie == movieId && r.review_user == userId)

/-- The model validators on `Review.rating`:
`MinValueValidator(1), MaxValueValidator(5)`. -/
def validRating (rating : Nat) : Bool :=
  1 ≤ rating && rating ≤ 5

/-- The model constraint on `Review.description`: CharField
max_length 200, null allowed. -/
def descValid : Option String → Bool
  | none => true
  | some d => d.length ≤ 200

/-- DRF runs the serializer's validation (the field validators above)
before `perform_create` is entered. -/
def serializerValid (rating : Nat) (d : Option String) : Bool :=
  validRating rating && descValid d

/-- `ReviewCreate.perform_create` of `Movie/views.py`, together with the
serializer validation that precedes it:
1. serializer field validation (rating in [1,5], description length);
2. `Movie.objects.get(pk=pk)`, else `Http404`;
3. duplicate check `Review.objects.filter(movie=movie, review_user=u)`,
   else `ValidationError`;
4. if `movie.number_rating == 0` then `avg_rating = rating` else
   `avg_rating = (movie.avg_rating + rating) / 2`; in both branches
   `number_rating = movie.number_rating + 1`;
5. `movie.save()` then `serializer.save(review_user=u, movie=movie)`. -/
def submitReview (s : Store) (movieId userId rating : Nat)
    (d : Option String) : Except ApiError Store :=
  if serializerValid rating d then
    match findMovie s movieId with
    | none => .error .notFound
    | some movie =>
      if hasReview s movie.id userId then .error .validationError
      else
        let movie' :=
          if movie.number_rating == 0 then
            { movie with avg_rating := (rating : ℚ),
                         number_rating := movie.number_rating + 1 }
          else
            { movie with avg_rating := (movie.avg_rating + (rating : ℚ)) / 2,
                         number_rating := movie.number_rating + 1 }
        let newReview : Review :=
          { id := s.nextReviewId, review_user := userId, rating := rating,
            description := d, movie := movie.id, active := true }
        .ok { s with
                movies := s.movies.map
                  (fun m => if m.id == movie.id then movie' else m),
                reviews := s.reviews ++ [newReview],
                nextReviewId := s.nextReviewId + 1 }
  else .error .validationError

/-- The store the server holds after a SubmitReview request: the new store
on success, the old store untouched when the request was rejected. -/
def runSubmit (s : Store) (movieId userId rating : Nat)
    (d : Option String) : Store :=
  match submitReview s movieId userId rating d with
  | .ok s' => s'
  | .error _ => s

/-- Submit a sequence of (userId, rating) pairs to one movie, in order. -/
def submitAll (s : Store) (movieId : Nat) : List (Nat × Nat) → Store
  | [] => s
  | (u, r) :: rest => submitAll (runSubmit s movieId u r none) movieId rest

/-- The movie's `avg_rating` as stored, if the movie exists. -/
def movieAvg (s : Store) (movieId : Nat) : Option ℚ :=
  (findMovie s movieId).map Movie.avg_rating

/-- The movie's `number_rating` as stored, if the movie exists. -/
def movieCount (s : Store) (movieId : Nat) : Option Nat :=
  (findMovie s movieId).map Movie.number_rating

/-- The spec's recurrence for the aggregate rating: `a1 = r1`,
`ai = (a(i-1) + ri) / 2`; `0` on the empty sequence (the field default). -/
def specAvg : List Nat → ℚ
  | [] => 0
  | r :: rs => rs.foldl (fun (a : ℚ) (q : Nat) => (a + (q : ℚ)) / 2) (r : ℚ)

/-- The writable surface of `ReviewSerializer` (`Movie/serializers.py`):
`review_user` is `read_only=True`, `movie` is excluded, `id` and the
auto-now `update` are read-only, leaving `rating`, `description` and
`active` as the only fields a request body can set. -/
structure ReviewUpdate where
  rating : Nat
  description : Option String
  active : Bool
deriving Repr, DecidableEq

/-- Apply an accepted request body to a stored review: exactly the
serializer's writable fields change. -/
def applyUpdate (r : Review) (b : ReviewUpdate) : Review :=
  { r with rating := b.rating, description := b.description,
           active := b.active }

/-- `PUT` on `ReviewDetail` (`generics.RetrieveUpdateDestroyAPIView`):
look the review up by pk (404 if absent), validate the body with
`ReviewSerializer`, save. No movie row is touched. -/
def updateReview (s : Store) (reviewId : Nat) (b : ReviewUpdate) :
    Except ApiError Store :=
  match s.reviews.find? (fun r => r.id == reviewId) with
  | none => .error .notFound
  | some _ =>
    if serializerValid b.rating b.description then
      .ok { s with reviews := s.reviews.map (fun r =>
              if r.id == reviewId then applyUpdate r b else r) }
    else .error .validationError

/-- `DELETE` on `ReviewDetail`: look the review up by pk (404 if absent)
and delete that row. No movie row is touched. -/
def deleteReview (s : Store) (reviewId : Nat) : Except ApiError Store :=
  match s.reviews.find? (fun r => r.id == reviewId) with
  | none => .error .notFound
  | some _ =>
    .ok { s with reviews := s.reviews.filter (fun r => !(r.id == reviewId)) }

/-- HTTP methods reaching `ReviewDetail`. -/
inductive Method where
  | get | head | options | put | patch | delete
deriving Repr, DecidableEq

/-- `rest_framework.permissions.SAFE_METHODS = ('GET', 'HEAD', 'OPTIONS')`. -/
def Method.isSafe : Method → Bool
  | .get | .head | .options => true
  | _ => false

/-- `IsReviewUserOrReadOnly.has_object_permission`
(`Movie/permissions.py`): safe methods are always allowed; otherwise
`obj.review_user == request.user or request.user.is_staff`. -/
def hasObjectPermission (method : Method) (user : User) (obj : Review) :
    Bool :=
  if method.isSafe then true
  else obj.review_user == user.id || user.is_staff

/-- Does some movie of `s` with platform `pid` own review `r`? Those are
the reviews Django's `on_delete=CASCADE` chain removes with platform
`pid`. -/
def reviewUnderPlatform (s : Store) (pid : Nat) (r : Review) : Bool :=
  s.movies.any (fun m => m.id == r.movie && m.platform == pid)

/-- `DELETE` on `StreamPlatformVS`: remove the platform row; Django then
cascades `Movie.platform` (`on_delete=CASCADE`), deleting every movie of
the platform, and `Review.movie` (`on_delete=CASCADE`), deleting every
review of a deleted movie. -/
def deletePlatform (s : Store) (pid : Nat) : Except ApiError Store :=
  match s.platforms.find? (fun p => p.id == pid) with
  | none => .error .notFound
  | some _ =>
    .ok { s with
            platforms := s.platforms.filter (fun p => !(p.id == pid)),
            movies := s.movies.filter (fun m => !(m.platform == pid)),
            reviews := s.reviews.filter
              (fun r => !(reviewUnderPlatform s pid r)) }

/-- The movie record written back by a successful submission: the two
branches of the rating calculation in `perform_create`. -/
def aggregated (mv : Movie) (r : Nat) : Movie :=
  if mv.number_rating == 0 then
    { mv with avg_rating := (r : ℚ),
              number_rating := mv.number_rating + 1 }
  else
    { mv with avg_rating := (mv.avg_rating + (r : ℚ)) / 2,
              number_rating := mv.number_rating + 1 }

/-! ### Concrete fixtures used by the witness theorems -/

/-- A platform fixture. -/
def platformW : StreamPlatform :=
  { id := 1, name := "", about := "", website := "" }

/-- A movie with no ratings yet (the model defaults
`avg_rating = 0`, `number_rating = 0`). -/
def movieW : Movie :=
  { id := 1, title := "", storyline := "", platform := 1,
    active := true, avg_rating := 0, number_rating := 0 }

/-- A store with one platform and one unrated movie. -/
def storeW : Store :=
  { platforms := [platformW], movies := [movieW],
    reviews := [], nextReviewId := 1 }

/-- A movie that already carries two aggregated ratings. -/
def movieR : Movie :=
  { id := 1, title := "", storyline := "", platform := 1,
    active := true, avg_rating := 4, number_rating := 2 }

/-- A review by user 1 of movie 1. -/
def reviewA : Review :=
  { id := 1, review_user := 1, rating := 5, description := none,
    movie := 1, active := true }

/-- A review by user 2 of movie 1. -/
def reviewB : Review :=
  { id := 2, review_user := 2, rating := 3, description := none,
    movie := 1, active := true }

/-- A store with one movie holding two reviews. -/
def storeRev : Store :=
  { platforms := [platformW], movies := [movieR],
    reviews := [reviewA, reviewB], nextReviewId := 3 }

/-- A deactivated review by user 1 of movie 1. -/
def reviewInactive : Review :=
  { id := 1, review_user := 1, rating := 5, description := none,
    movie := 1, active := false }

/-- A store whose only review is deactivated. -/
def storeInactive : Store :=
  { platforms := [platformW], movies := [movieR],
    reviews := [reviewInactive], nextReviewId := 2 }

/-- A request body that rewrites the writable review fields. -/
def bodyU : ReviewUpdate :=
  { rating := 1, description := none, active := false }

/-- `storeRev` after `PUT` of `bodyU` on review 1. -/
def storeRevUp : Store :=
  { storeRev with reviews := [applyUpdate reviewA bodyU, reviewB] }

/-- `storeRev` after `DELETE` on review 1. -/
def storeRevDel : Store :=
  { storeRev with reviews := [reviewB] }

/-- `storeRev` after `DELETE` on platform 1: the cascade empties all
three tables. -/
def storeDel : Store :=
  { platforms := [], movies := [], reviews := [], nextReviewId := 3 }

/-! ### Helper lemmas on the embedded operations -/

/-- A movie found by primary key carries that primary key. -/
theorem findMovie_id {s : Store} {mid : Nat} {mv : Movie}
    (hf : findMovie s mid = some mv) : mv.id = mid := by
  have h := List.find?_some hf
  simpa using h

/-- Replacing (by id) the movie that `find?` locates yields a list on
which `find?` locates the replacement. -/
theorem find?_map_update (l : List Movie) (mid : Nat) (mv mv' : Movie)
    (hf : l.find? (fun m => m.id == mid) = some mv) (hid : mv'.id = mv.id) :
    (l.map (fun m => if m.id == mv.id then mv' else m)).find?
      (fun m => m.id == mid) = some mv' := by
  have hmv : mv.id = mid := by simpa using List.find?_some hf
  induction l with
  | nil => simp at hf
  | cons a t ih =>
    rw [List.find?_cons] at hf
    by_cases h : (a.id == mid) = true
    · simp only [h] at hf
      have ha : a = mv := by simpa using hf
      simp only [List.map_cons, ha, if_pos rfl]
      rw [List.find?_cons]
      have : (mv'.id == mid) = true := by simp [hid, hmv]
      simp [this]
    · simp only [Bool.not_eq_true] at h
      simp only [h] at hf
      have ha : ¬ (a.id == mv.id) = true := by
        simp only [hmv]
        simp [h]
      simp only [List.map_cons, if_neg ha]
      rw [List.find?_cons]
      simp only [h]
      exact ih hf

/-- A submission with a valid body by a user with no prior review of an
existing movie succeeds, stores the aggregated movie record, and extends
exactly this movie's review set by this user. -/
theorem runSubmit_ok (s : Store) (mid u r : Nat) (d : Option String)
    (mv : Movie) (hf : findMovie s mid = some mv)
    (hval : validRating r = true) (hd : descValid d = true)
    (hnr : hasReview s mid u = false) :
    (submitReview s mid u r d).isOk = true ∧
    findMovie (runSubmit s mid u r d) mid = some (aggregated mv r) ∧
    (∀ u', hasReview (runSubmit s mid u r d) mid u'
        = (hasReview s mid u' || (u == u'))) := by
  have hid : mv.id = mid := findMovie_id hf
  have hsv : serializerValid r d = true := by
    simp [serializerValid, hval, hd]
  have hnr' : hasReview s mv.id u = false := by rw [hid]; exact hnr
  have hsub : submitReview s mid u r d =
      .ok { s with
              movies := s.movies.map
                (fun m => if m.id == mv.id then aggregated mv r else m),
              reviews := s.reviews ++
                [{ id := s.nextReviewId, review_user := u, rating := r,
                   description := d, movie := mv.id, active := true }],
              nextReviewId := s.nextReviewId + 1 } := by
    simp only [submitReview, hsv, if_true, hf, hnr']
    simp [aggregated]
  have hrun : runSubmit s mid u r d =
      { s with
          movies := s.movies.map
            (fun m => if m.id == mv.id then aggregated mv r else m),
          reviews := s.reviews ++
            [{ id := s.nextReviewId, review_user := u, rating := r,
               description := d, movie := mv.id, active := true }],
          nextReviewId := s.nextReviewId + 1 } := by
    simp only [runSubmit, hsub]
  refine ⟨by rw [hsub]; rfl, ?_, ?_⟩
  · rw [hrun]
    exact find?_map_update s.movies mid mv (aggregated mv r) hf
      (by unfold aggregated; split <;> rfl)
  · intro u'
    rw [hrun]
    simp [hasReview, List.any_append, hid]

/-- Folding submissions into a movie whose `number_rating` is already
positive halving-averages each rating in turn and counts them. -/
theorem submitAll_pos (pairs : List (Nat × Nat)) (s : Store) (mid : Nat)
    (mv : Movie) (hf : findMovie s mid = some mv)
    (hpos : mv.number_rating ≠ 0)
    (hval : ∀ p ∈ pairs, validRating p.2 = true)
    (hfresh : ∀ p ∈ pairs, hasReview s mid p.1 = false)
    (hnd : (pairs.map Prod.fst).Nodup) :
    movieAvg (submitAll s mid pairs) mid
      = some (pairs.foldl (fun a p => (a + (p.2 : ℚ)) / 2) mv.avg_rating) ∧
    movieCount (submitAll s mid pairs) mid
      = some (mv.number_rating + pairs.length) := by
  induction pairs generalizing s mv with
  | nil => simp [submitAll, movieAvg, movieCount, hf]
  | cons p t ih =>
    obtain ⟨u, r⟩ := p
    have h1 := (runSubmit_ok s mid u r none mv hf
      (hval (u, r) (by simp)) rfl (hfresh (u, r) (by simp))).2
    have hne : ¬ (mv.number_rating == 0) = true := by simpa using hpos
    rw [aggregated, if_neg hne] at h1
    rw [List.map_cons] at hnd
    obtain ⟨hu, hndt⟩ := List.nodup_cons.mp hnd
    have hfresh' : ∀ p ∈ t,
        hasReview (runSubmit s mid u r none) mid p.1 = false := by
      intro p hp
      rw [h1.2 p.1]
      have hup : (u == p.1) = false := by
        simp only [beq_eq_false_iff_ne, ne_eq]
        intro he
        apply hu
        show u ∈ List.map Prod.fst t
        rw [he]
        exact List.mem_map_of_mem Prod.fst hp
      rw [hfresh p (by simp [hp]), hup]
      rfl
    have ihres := ih (runSubmit s mid u r none) _ h1.1 (by simp)
      (fun p hp => hval p (by simp [hp])) hfresh' hndt
    refine ⟨?_, ?_⟩
    · rw [show submitAll s mid ((u, r) :: t)
            = submitAll (runSubmit s mid u r none) mid t from rfl]
      rw [ihres.1]
      simp
    · rw [show submitAll s mid ((u, r) :: t)
            = submitAll (runSubmit s mid u r none) mid t from rfl]
      rw [ihres.2]
      simp only [List.length_cons, Option.some.injEq]
      omega

/-- Any submission targeting an existing movie the user has already
reviewed is answered with `ValidationError` and leaves the store as it
was. -/
theorem submit_duplicate_rejected (s : Store) (mid u r : Nat)
    (d : Option String) (hm : (findMovie s mid).isSome = true)
    (hdup : hasReview s mid u = true) :
    submitReview s mid u r d = .error .validationError ∧
    runSubmit s mid u r d = s := by
  cases hsv : serializerValid r d with
  | false =>
    refine ⟨by simp [submitReview, hsv], ?_⟩
    simp [runSubmit, submitReview, hsv]
  | true =>
    obtain ⟨mv, hmv⟩ := Option.isSome_iff_exists.mp hm
    have hid : mv.id = mid := findMovie_id hmv
    have hdup' : hasReview s mv.id u = true := by rw [hid]; exact hdup
    refine ⟨by simp [submitReview, hsv, hmv, hdup'], ?_⟩
    simp [runSubmit, submitReview, hsv, hmv, hdup']

/-- Unfolding `specAvg` on a nonempty rating list. -/
theorem specAvg_cons (r : Nat) (rs : List Nat) :
    specAvg (r :: rs)
      = rs.foldl (fun (a : ℚ) (q : Nat) => (a + (q : ℚ)) / 2) (r : ℚ) :=
  rfl

/-! ### The claims -/

/-- C1: starting from `number_rating == 0`, the `avg_rating` stored after
the i-th successful submission by pairwise-distinct fresh users follows
the recurrence `a1 = r1; ai = (a(i-1) + ri) / 2` (the halving average of
`perform_create`, not the arithmetic mean of the ratings), and
`number_rating` counts the submissions; in particular ratings 5, 3, 4
yield the `avg_rating` sequence 5, 4, 4 (see the witness). -/
theorem reviewCreate_avg_follows_halving_recurrence
    (s : Store) (mid : Nat) (pairs : List (Nat × Nat)) (mv : Movie)
    (hf : findMovie s mid = some mv) (h0 : mv.number_rating = 0)
    (hval : ∀ p ∈ pairs, validRating p.2 = true)
    (hfresh : ∀ p ∈ pairs, hasReview s mid p.1 = false)
    (hnd : (pairs.map Prod.fst).Nodup)
    (i : Nat) (hi1 : 1 ≤ i) (hi2 : i ≤ pairs.length) :
    movieAvg (submitAll s mid (pairs.take i)) mid
      = some (specAvg ((pairs.take i).map Prod.snd)) ∧
    movieCount (submitAll s mid (pairs.take i)) mid = some i := by
  cases pairs with
  | nil => simp at hi2; omega
  | cons p t =>
    obtain ⟨u, r⟩ := p
    obtain ⟨j, rfl⟩ : ∃ j, i = j + 1 := ⟨i - 1, by omega⟩
    have hjt : j ≤ t.length := by simpa using hi2
    rw [List.take_succ_cons]
    have h1 := (runSubmit_ok s mid u r none mv hf
      (hval (u, r) (by simp)) rfl (hfresh (u, r) (by simp))).2
    have hz : (mv.number_rating == 0) = true := by simp [h0]
    rw [aggregated, if_pos hz] at h1
    rw [List.map_cons] at hnd
    obtain ⟨hu, hndt⟩ := List.nodup_cons.mp hnd
    have hfresh1 : ∀ p ∈ t.take j,
        hasReview (runSubmit s mid u r none) mid p.1 = false := by
      intro p hp
      have hpt : p ∈ t := List.take_subset j t hp
      rw [h1.2 p.1]
      have hup : (u == p.1) = false := by
        simp only [beq_eq_false_iff_ne, ne_eq]
        intro he
        apply hu
        show u ∈ List.map Prod.fst t
        rw [he]
        exact List.mem_map_of_mem Prod.fst hpt
      rw [hfresh p (by simp [hpt]), hup]
      rfl
    have hval1 : ∀ p ∈ t.take j, validRating p.2 = true :=
      fun p hp => hval p (by simp [List.take_subset j t hp])
    have hnd1 : ((t.take j).map Prod.fst).Nodup := by
      rw [List.map_take]
      exact List.Nodup.sublist (List.take_sublist _ _) hndt
    have hres := submitAll_pos (t.take j) _ mid _ h1.1 (by simp)
      hval1 hfresh1 hnd1
    have hstep : submitAll s mid ((u, r) :: t.take j)
        = submitAll (runSubmit s mid u r none) mid (t.take j) := rfl
    refine ⟨?_, ?_⟩
    · rw [hstep, hres.1]
      congr 1
      rw [List.map_cons, specAvg_cons, List.foldl_map]
    · rw [hstep, hres.2]
      simp only [Option.some.injEq]
      rw [List.length_take]
      simp only [h0]
      omega

/-- C1 witness: on a fresh movie, ratings 5, 3, 4 by users 1, 2, 3 give
the stored `avg_rating` sequence 5, 4, 4 with counts 1, 2, 3. -/
theorem reviewCreate_avg_follows_halving_recurrence_witness :
    (movieAvg (submitAll storeW 1 ([(1, 5), (2, 3), (3, 4)].take 1)) 1
        = some 5
      ∧ movieCount (submitAll storeW 1 ([(1, 5), (2, 3), (3, 4)].take 1)) 1
        = some 1)
    ∧ (movieAvg (submitAll storeW 1 ([(1, 5), (2, 3), (3, 4)].take 2)) 1
        = some 4
      ∧ movieCount (submitAll storeW 1 ([(1, 5), (2, 3), (3, 4)].take 2)) 1
        = some 2)
    ∧ (movieAvg (submitAll storeW 1 ([(1, 5), (2, 3), (3, 4)].take 3)) 1
        = some 4
      ∧ movieCount (submitAll storeW 1 ([(1, 5), (2, 3), (3, 4)].take 3)) 1
        = some 3) := by
  have h1 := reviewCreate_avg_follows_halving_recurrence storeW 1
    [(1, 5), (2, 3), (3, 4)] movieW rfl rfl (by decide) (by decide)
    (by decide) 1 (by norm_num) (by norm_num)
  have h2 := reviewCreate_avg_follows_halving_recurrence storeW 1
    [(1, 5), (2, 3), (3, 4)] movieW rfl rfl (by decide) (by decide)
    (by decide) 2 (by norm_num) (by norm_num)
  have h3 := reviewCreate_avg_follows_halving_recurrence storeW 1
    [(1, 5), (2, 3), (3, 4)] movieW rfl rfl (by decide) (by decide)
    (by decide) 3 (by norm_num) (by norm_num)
  norm_num [specAvg] at h1 h2 h3
  exact ⟨⟨h1.1, h1.2⟩, ⟨h2.1, h2.2⟩, h3.1, h3.2⟩

/-- C2: on a movie with `number_rating == 0`, a successful submission
with rating r stores `avg_rating = r` and `number_rating = 1`. -/
theorem reviewCreate_first_review_sets_avg
    (s : Store) (mid u r : Nat) (d : Option String) (mv : Movie)
    (hf : findMovie s mid = some mv) (h0 : mv.number_rating = 0)
    (hval : validRating r = true) (hd : descValid d = true)
    (hnr : hasReview s mid u = false) :
    (submitReview s mid u r d).isOk = true ∧
    movieAvg (runSubmit s mid u r d) mid = some (r : ℚ) ∧
    movieCount (runSubmit s mid u r d) mid = some 1 := by
  have h := runSubmit_ok s mid u r d mv hf hval hd hnr
  have hz : (mv.number_rating == 0) = true := by simp [h0]
  rw [aggregated, if_pos hz] at h
  refine ⟨h.1, ?_, ?_⟩
  · rw [movieAvg, h.2.1]
    rfl
  · rw [movieCount, h.2.1]
    simp [h0]

/-- C2 witness: rating 5 on the unrated movie of `storeW` succeeds and
stores `avg_rating = 5`, `number_rating = 1`. -/
theorem reviewCreate_first_review_sets_avg_witness :
    (submitReview storeW 1 1 5 none).isOk = true ∧
    movieAvg (runSubmit storeW 1 1 5 none) 1 = some ((5 : Nat) : ℚ) ∧
    movieCount (runSubmit storeW 1 1 5 none) 1 = some 1 :=
  reviewCreate_first_review_sets_avg storeW 1 1 5 none movieW rfl rfl
    (by decide) rfl rfl

/-- C3: a second submission by the same user for the same (existing)
movie is answered with `ValidationError` and the store — reviews,
`avg_rating`, `number_rating` — is left exactly as it was. -/
theorem reviewCreate_duplicate_rejected_no_mutation
    (s : Store) (mid u r : Nat) (d : Option String)
    (hm : (findMovie s mid).isSome = true)
    (hdup : hasReview s mid u = true) :
    submitReview s mid u r d = .error .validationError ∧
    runSubmit s mid u r d = s :=
  submit_duplicate_rejected s mid u r d hm hdup

/-- C3 witness: user 1 already reviewed movie 1 of `storeRev`; a new
submission is rejected and the store is unchanged. -/
theorem reviewCreate_duplicate_rejected_no_mutation_witness :
    submitReview storeRev 1 1 4 none = .error .validationError ∧
    runSubmit storeRev 1 1 4 none = storeRev :=
  reviewCreate_duplicate_rejected_no_mutation storeRev 1 1 4 none rfl rfl

/-- C4: a submission with a valid body for a movie id that matches no
movie is answered with `NotFound` and the store is left exactly as it
was. -/
theorem reviewCreate_missing_movie_not_found
    (s : Store) (mid u r : Nat) (d : Option String)
    (hm : findMovie s mid = none)
    (hval : validRating r = true) (hd : descValid d = true) :
    submitReview s mid u r d = .error .notFound ∧
    runSubmit s mid u r d = s := by
  have hsv : serializerValid r d = true := by simp [serializerValid, hval, hd]
  refine ⟨by simp [submitReview, hsv, hm], ?_⟩
  simp [runSubmit, submitReview, hsv, hm]

/-- C4 witness: `storeW` has no movie 2; a valid submission for it is
answered with `NotFound` and the store is unchanged. -/
theorem reviewCreate_missing_movie_not_found_witness :
    submitReview storeW 2 1 5 none = .error .notFound ∧
    runSubmit storeW 2 1 5 none = storeW :=
  reviewCreate_missing_movie_not_found storeW 2 1 5 none rfl (by decide) rfl

/-- C5: a rating outside [1,5] is answered with `ValidationError` and no
mutation for every store whatsoever — in particular whether or not the
movie exists and whether or not the user has already reviewed it — which
is exactly the serializer validation running before the movie lookup of
`perform_create`. -/
theorem reviewCreate_invalid_rating_rejected_before_lookup
    (s : Store) (mid u r : Nat) (d : Option String)
    (hval : validRating r = false) :
    submitReview s mid u r d = .error .validationError ∧
    runSubmit s mid u r d = s := by
  have hsv : serializerValid r d = false := by simp [serializerValid, hval]
  refine ⟨by simp [submitReview, hsv], ?_⟩
  simp [runSubmit, submitReview, hsv]

/-- C5 witness: rating 6 (and rating 0) is rejected with
`ValidationError` on `storeW` — also at the nonexistent movie id 2 —
without any mutation. -/
theorem reviewCreate_invalid_rating_rejected_before_lookup_witness :
    (submitReview storeW 1 1 6 none = .error .validationError ∧
      runSubmit storeW 1 1 6 none = storeW) ∧
    (submitReview storeW 2 1 0 none = .error .validationError ∧
      runSubmit storeW 2 1 0 none = storeW) :=
  ⟨reviewCreate_invalid_rating_rejected_before_lookup storeW 1 1 6 none
      (by decide),
    reviewCreate_invalid_rating_rejected_before_lookup storeW 2 1 0 none
      (by decide)⟩

/-- C6: `ReviewDetail` update and delete never touch the movies table:
any successful update and any successful delete of a review leave every
movie record — in particular the owning movie's `avg_rating` and
`number_rating` — exactly as stored, so `number_rating` keeps counting
the reviews ever successfully created even after edits and deletes. -/
theorem reviewDetail_no_reaggregation
    (s : Store) (rid : Nat) (b : ReviewUpdate) (s₁ s₂ : Store)
    (hup : updateReview s rid b = .ok s₁)
    (hdel : deleteReview s rid = .ok s₂) :
    s₁.movies = s.movies ∧ s₂.movies = s.movies := by
  constructor
  · simp only [updateReview] at hup
    split at hup
    · exact absurd hup (by simp)
    · split at hup
      · injection hup with hup
        rw [← hup]
      · exact absurd hup (by simp)
  · simp only [deleteReview] at hdel
    split at hdel
    · exact absurd hdel (by simp)
    · injection hdel with hdel
      rw [← hdel]

/-- C6 witness: updating review 1 of `storeRev` (changing rating,
description and active) and deleting it both leave the movie table of
`storeRev` — `avg_rating = 4`, `number_rating = 2` — untouched. -/
theorem reviewDetail_no_reaggregation_witness :
    storeRevUp.movies = storeRev.movies ∧
    storeRevDel.movies = storeRev.movies :=
  reviewDetail_no_reaggregation storeRev 1 bodyU storeRevUp storeRevDel
    rfl rfl

/-- C7: `IsReviewUserOrReadOnly.has_object_permission` allows every safe
(read) request, and allows an unsafe (write) request exactly when the
caller is the review's `review_user` or has `is_staff` — anyone else is
rejected. -/
theorem isReviewUserOrReadOnly_owner_or_admin
    (method : Method) (user : User) (obj : Review) :
    (method.isSafe = true → hasObjectPermission method user obj = true) ∧
    (method.isSafe = false →
      (hasObjectPermission method user obj = true ↔
        (obj.review_user = user.id ∨ user.is_staff = true))) := by
  constructor
  · intro h
    simp [hasObjectPermission, h]
  · intro h
    simp [hasObjectPermission, h]

/-- C7 witness: on a review owned by user 1, a GET by anyone is allowed;
a PUT is allowed for the owner (user 1) and for a staff user (user 9),
and denied for the plain user 2. -/
theorem isReviewUserOrReadOnly_owner_or_admin_witness :
    hasObjectPermission .get { id := 2, username := "", is_staff := false }
      reviewA = true ∧
    hasObjectPermission .put { id := 1, username := "", is_staff := false }
      reviewA = true ∧
    hasObjectPermission .put { id := 9, username := "", is_staff := true }
      reviewA = true ∧
    hasObjectPermission .put { id := 2, username := "", is_staff := false }
      reviewA = false := by
  refine ⟨?_, ?_, ?_, ?_⟩
  · exact (isReviewUserOrReadOnly_owner_or_admin .get
      { id := 2, username := "", is_staff := false } reviewA).1 rfl
  · exact ((isReviewUserOrReadOnly_owner_or_admin .put
      { id := 1, username := "", is_staff := false } reviewA).2 rfl).mpr
      (Or.inl rfl)
  · exact ((isReviewUserOrReadOnly_owner_or_admin .put
      { id := 9, username := "", is_staff := true } reviewA).2 rfl).mpr
      (Or.inr rfl)
  · have h := ((isReviewUserOrReadOnly_owner_or_admin .put
      { id := 2, username := "", is_staff := false } reviewA).2 rfl)
    cases hb : hasObjectPermission .put
        { id := 2, username := "", is_staff := false } reviewA
    · rfl
    · rcases h.mp hb with h1 | h2
      · exact absurd h1 (by decide)
      · exact absurd h2 (by decide)

/-- C8: deleting a platform removes the platform row, every movie on that
platform, and every review whose movie was on that platform: nothing
reachable from the platform survives in the resulting store. -/
theorem platformDelete_cascades (s : Store) (pid : Nat) (s' : Store)
    (h : deletePlatform s pid = .ok s') :
    s'.platforms.all (fun p => !(p.id == pid)) = true ∧
    s'.movies.all (fun m => !(m.platform == pid)) = true ∧
    s'.reviews.all (fun r => !(reviewUnderPlatform s pid r)) = true := by
  simp only [deletePlatform] at h
  split at h
  · exact absurd h (by simp)
  · injection h with h
    rw [← h]
    refine ⟨?_, ?_, ?_⟩
    all_goals
      rw [List.all_eq_true]
      intro x hx
      exact (List.mem_filter.mp hx).2

/-- C8 witness: deleting platform 1 of `storeRev` empties the platform,
movie and review tables; no record reachable from the platform remains. -/
theorem platformDelete_cascades_witness :
    storeDel.platforms.all (fun p => !(p.id == 1)) = true ∧
    storeDel.movies.all (fun m => !(m.platform == 1)) = true ∧
    storeDel.reviews.all (fun r => !(reviewUnderPlatform storeRev 1 r))
      = true :=
  platformDelete_cascades storeRev 1 storeDel rfl

/-- C9: the duplicate check of `perform_create` filters only on
`(movie, review_user)` and ignores `active`: a submission by a user who
has an inactive review of the movie is still rejected with
`ValidationError`, and the store is unchanged. -/
theorem reviewCreate_duplicate_check_ignores_active
    (s : Store) (mid u r : Nat) (d : Option String) (rv : Review)
    (hrv : rv ∈ s.reviews) (hrm : rv.movie = mid) (hru : rv.review_user = u)
    (_hinact : rv.active = false)
    (hm : (findMovie s mid).isSome = true) :
    submitReview s mid u r d = .error .validationError ∧
    runSubmit s mid u r d = s := by
  have hdup : hasReview s mid u = true := by
    rw [hasReview, List.any_eq_true]
    exact ⟨rv, hrv, by simp [hrm, hru]⟩
  exact submit_duplicate_rejected s mid u r d hm hdup

/-- C9 witness: in `storeInactive` user 1's only review of movie 1 has
`active = false`; a fresh valid submission by user 1 is still rejected
as a duplicate and the store is unchanged. -/
theorem reviewCreate_duplicate_check_ignores_active_witness :
    submitReview storeInactive 1 1 4 none = .error .validationError ∧
    runSubmit storeInactive 1 1 4 none = storeInactive :=
  reviewCreate_duplicate_check_ignores_active storeInactive 1 1 4 none
    reviewInactive (by simp [storeInactive]) rfl rfl rfl rfl

/-- C10: `ReviewSerializer` exposes neither `review_user` (read-only)
nor `movie` (excluded) for writing, so a successful `ReviewDetail`
update maps every stored review to one with the same id, the same
`review_user` and the same `movie`; an edit can never reassign a review
to another user or movie, hence cannot break the one-review-per-
(user, movie) property. -/
theorem reviewUpdate_cannot_reassign_user_or_movie
    (s : Store) (rid : Nat) (b : ReviewUpdate) (s' : Store)
    (h : updateReview s rid b = .ok s') :
    s'.reviews.map (fun r => (r.id, r.review_user, r.movie))
      = s.reviews.map (fun r => (r.id, r.review_user, r.movie)) := by
  simp only [updateReview] at h
  split at h
  · exact absurd h (by simp)
  · split at h
    · injection h with h
      rw [← h]
      show (s.reviews.map _).map _ = _
      rw [List.map_map]
      refine List.map_congr_left ?_
      intro r hr
      by_cases hc : r.id = rid
      · simp [hc, applyUpdate]
      · simp [hc]
    · exact absurd h (by simp)

/-- C10 witness: the update of review 1 of `storeRev` by `bodyU` keeps
every review's id, `review_user` and `movie` exactly as before. -/
theorem reviewUpdate_cannot_reassign_user_or_movie_witness :
    storeRevUp.reviews.map (fun r => (r.id, r.review_user, r.movie))
      = storeRev.reviews.map (fun r => (r.id, r.review_user, r.movie)) :=
  reviewUpdate_cannot_reassign_user_or_movie storeRev 1 bodyU storeRevUp
    rfl

end MovieApi
